import Mathlib

/-!
Verification of the LLDB debugging helpers for the Sundials `Vector` and
`Matrix` types (`src/Debug/LLDB.py`).

The script is a thin adapter over the LLDB host API.  The host objects
(`SBFrame`, `SBTarget`, `SBValue`, `SBType`) are modelled as structures of
abstract functions: an arbitrary inhabitant stands for an arbitrary state of
the inspected process, so every theorem quantified over a handle holds for
every behaviour of the host.  The adapter code itself is translated
line by line from the Python source.
-/

namespace LLDB

/-- The observable facts about one LLDB `SBValue` result, as the script uses
them: `GetValueAsUnsigned()` (a `uint64`, modelled as `Nat`), the `.signed`
property (`GetValueAsSigned()`, an `int64`, modelled as `Int`) and
`GetValue()` (a rendered string, or `None` when the value cannot be
resolved, modelled as `Option String`). -/
structure SBVal where
  GetValueAsUnsigned : Nat
  signed : Int
  GetValue : Option String

/-- An LLDB `SBType`; the script only queries `GetByteSize()`. -/
structure SBType where
  GetByteSize : Nat

/-- An LLDB `SBFrame`; the script only calls `EvaluateExpression`. -/
structure SBFrame where
  EvaluateExpression : String → SBVal

/-- An LLDB `SBTarget`; the script only calls `FindFirstType`. -/
structure SBTarget where
  FindFirstType : String → SBType

/-- The LLDB `SBValue` handle a summary or synthetic provider receives.
The fields are exactly the methods the script invokes on it. -/
structure SBValueHandle where
  GetName : String
  GetFrame : SBFrame
  GetTarget : SBTarget
  CreateValueFromExpression : String → String → SBVal
  CreateValueFromAddress : String → Nat → SBType → SBVal

/-- Python truthiness of `GetValue()`'s result: `None` and the empty string
are falsy, every other string is truthy. -/
def pyTruthy : Option String → Bool
  | none => false
  | some s => !s.isEmpty

/-- Hexadecimal digits accepted by Python `int(_, 16)`. -/
def isHexDigit (c : Char) : Bool :=
  c.isDigit || ('a' ≤ c && c ≤ 'f') || ('A' ≤ c && c ≤ 'F')

/-- Numeric value of a hexadecimal digit. -/
def hexDigitValue (c : Char) : Nat :=
  if c.isDigit then c.toNat - '0'.toNat
  else if 'a' ≤ c && c ≤ 'f' then c.toNat - 'a'.toNat + 10
  else c.toNat - 'A'.toNat + 10

/-- Python `int(s, 16)` on unsigned literals: an optional `0x`/`0X` prefix
followed by at least one hexadecimal digit parses to the denoted number;
any other string raises `ValueError`.  (Python additionally allows signs,
surrounding whitespace and digit-group underscores; those never occur in
the strings this script feeds to `int` and are not modelled.) -/
def pyIntBase16 (s : String) : Except String Nat :=
  let chars := s.toList
  let body := if chars.take 2 = ['0', 'x'] || chars.take 2 = ['0', 'X'] then
    chars.drop 2 else chars
  if !body.isEmpty && body.all isHexDigit then
    Except.ok (body.foldl (fun acc c => 16 * acc + hexDigitValue c) 0)
  else
    Except.error ("ValueError: invalid literal for int() with base 16: " ++ s)

/-- Python `f"{n:x}"` for a non-negative integer: lowercase hexadecimal
digits, no prefix, `"0"` for zero. -/
def pyHex (n : Nat) : String :=
  String.mk (Nat.toDigits 16 n)

/-- The `Vector` adapter instance: `__init__` stores the value's name, its
frame and the raw handle. -/
structure Vector where
  name : String
  frame : SBFrame
  value : SBValueHandle

/-- Constructor `Vector.__init__(value)`. -/
def Vector.ofValue (value : SBValueHandle) : Vector :=
  { name := value.GetName, frame := value.GetFrame, value := value }

/-- Method `Vector.GetExpressionPath`: evaluate `f"{self.name}{path}"` in the
captured frame. -/
def Vector.GetExpressionPath (self : Vector) (path : String) : SBVal :=
  self.frame.EvaluateExpression (self.name ++ path)

/-- Method `Vector.CreateExpressionPathValue`: build a child handle from the
expression `f"{self.name}{path}"`, with the given display name. -/
def Vector.CreateExpressionPathValue (self : Vector) (name path : String) : SBVal :=
  self.value.CreateValueFromExpression name (self.name ++ path)

/-- Method `Vector.num_children`: evaluate `<name>.count` and return its `.signed`
value directly. -/
def Vector.num_children (self : Vector) : Int :=
  (self.GetExpressionPath ".count").signed

/-- Method `Vector.get_child_at_index`: `None` when `index not in
range(self.num_children())`, otherwise the child built from the indexing
expression `<name>[index]`, named `[index]`. -/
def Vector.get_child_at_index (self : Vector) (index : Int) : Option SBVal :=
  if 0 ≤ index ∧ index < self.num_children then
    some (self.CreateExpressionPathValue ("[" ++ toString index ++ "]")
      ("[" ++ toString index ++ "]"))
  else
    none

/-- Method `SyntheticWrapper.has_children`, inherited by `Vector`: dynamic dispatch
reaches `Vector.num_children`. -/
def Vector.has_children (self : Vector) : Bool :=
  let non_empty := decide (self.num_children > 0)
  non_empty

set_option linter.unusedVariables false in
/-- Method `SyntheticWrapper.get_child_index`, inherited by `Vector`: always
`None`. -/
def Vector.get_child_index (self : Vector) (name : String) : Option Int :=
  none

/-- Class method `Vector.summary`: format `f"0x{pointer:x} ({count} values)"` where
`pointer` is the unsigned evaluation of `<name>.pointer` and `count` is
`num_children()`. -/
def Vector.summary (value : SBValueHandle) : String :=
  let vector := Vector.ofValue value
  let pointer := (vector.GetExpressionPath ".pointer").GetValueAsUnsigned
  "0x" ++ pyHex pointer ++ " (" ++ toString vector.num_children ++ " values)"

/-- The `Matrix` adapter instance: `__init__` stores the value's name, its
frame, its target and the raw handle. -/
structure Matrix where
  name : String
  frame : SBFrame
  target : SBTarget
  value : SBValueHandle

/-- Constructor `Matrix.__init__(value)`. -/
def Matrix.ofValue (value : SBValueHandle) : Matrix :=
  { name := value.GetName, frame := value.GetFrame,
    target := value.GetTarget, value := value }

/-- Method `Matrix.GetExpressionPath`: evaluate `f"{self.name}{path}"` in the
captured frame. -/
def Matrix.GetExpressionPath (self : Matrix) (path : String) : SBVal :=
  self.frame.EvaluateExpression (self.name ++ path)

/-- The f-string `f"0x{pointer:x} ({rows}×{cols} values)"` at the end of
`Matrix.summary`. -/
def matrixFString (pointer rows cols : Nat) : String :=
  "0x" ++ pyHex pointer ++ " (" ++ toString rows ++ "×" ++ toString cols ++ " values)"

/-- Class method `Matrix.summary`.  `content.GetValue()` is tested for Python truthiness;
when truthy it is fed to `int(contentValue, 16)`, which raises `ValueError`
(modelled as `Except.error`) on a non-hexadecimal string; `rows` and `cols`
are unsigned reads of `sunindextype`-sized cells at the content address and
at that address plus the type's byte size.  When `contentValue` is falsy,
`rows = cols = 0`. -/
def Matrix.summary (value : SBValueHandle) : Except String String :=
  let matrix := Matrix.ofValue value
  let pointer := (matrix.GetExpressionPath ".pointer").GetValueAsUnsigned
  let content := matrix.GetExpressionPath ".pointer.pointee.content!"
  let contentValue := content.GetValue
  let dims : Except String (Nat × Nat) :=
    if pyTruthy contentValue then
      let type := matrix.target.FindFirstType "sunindextype"
      let offset := type.GetByteSize
      match pyIntBase16 (contentValue.getD "") with
      | Except.error e => Except.error e
      | Except.ok address =>
        Except.ok
          ((matrix.value.CreateValueFromAddress "rows" address type).GetValueAsUnsigned,
           (matrix.value.CreateValueFromAddress "cols" (address + offset) type).GetValueAsUnsigned)
    else
      Except.ok (0, 0)
  match dims with
  | Except.error e => Except.error e
  | Except.ok (rows, cols) => Except.ok (matrixFString pointer rows cols)


/-- State-passing reading of `Vector.num_children`: the Python method reads
`self` but assigns no attribute, so the adapter state comes back unchanged
next to the result. -/
def Vector.num_childrenS (self : Vector) : Int × Vector :=
  ((self.GetExpressionPath ".count").signed, self)

/-- State-passing reading of `Vector.get_child_at_index`; it calls
`num_children` and assigns no attribute. -/
def Vector.get_child_at_indexS (self : Vector) (index : Int) : Option SBVal × Vector :=
  let r := self.num_childrenS
  (if 0 ≤ index ∧ index < r.1 then
    some (r.2.CreateExpressionPathValue ("[" ++ toString index ++ "]")
      ("[" ++ toString index ++ "]"))
  else
    none, r.2)

set_option linter.unusedVariables false in
/-- State-passing reading of the inherited `get_child_index`. -/
def Vector.get_child_indexS (self : Vector) (name : String) : Option Int × Vector :=
  (none, self)

/-- State-passing reading of the inherited `has_children`. -/
def Vector.has_childrenS (self : Vector) : Bool × Vector :=
  let r := self.num_childrenS
  (decide (r.1 > 0), r.2)

/-- A host state whose `<name>.pointer` renders with address `0xABCD` and
whose `<name>.pointer.pointee.content!` cannot be resolved (`GetValue()`
is `None`). -/
def nullContentHandle : SBValueHandle :=
  { GetName := "matrix",
    GetFrame := ⟨fun e =>
      if e = "matrix.pointer" then ⟨43981, 0, some "0x000000000000abcd"⟩
      else ⟨0, 0, none⟩⟩,
    GetTarget := ⟨fun _ => ⟨8⟩⟩,
    CreateValueFromExpression := fun _ _ => ⟨0, 0, none⟩,
    CreateValueFromAddress := fun _ _ _ => ⟨0, 0, none⟩ }

/-- A host state whose content pointer resolves, but renders as the
non-hexadecimal string `"unavailable"` (LLDB's `GetValue()` may render a
resolved value with any text, e.g. for a non-pointer-typed field). -/
def badContentHandle : SBValueHandle :=
  { GetName := "matrix",
    GetFrame := ⟨fun e =>
      if e = "matrix.pointer.pointee.content!" then ⟨0, 0, some "unavailable"⟩
      else ⟨0, 0, none⟩⟩,
    GetTarget := ⟨fun _ => ⟨8⟩⟩,
    CreateValueFromExpression := fun _ _ => ⟨0, 0, none⟩,
    CreateValueFromAddress := fun _ _ _ => ⟨0, 0, none⟩ }

/-- A host state in which `<name>.count` evaluates to the signed value `-1`
(e.g. a corrupted or uninitialised count field). -/
def negCountHandle : SBValueHandle :=
  { GetName := "vector",
    GetFrame := ⟨fun e =>
      if e = "vector.count" then ⟨0, -1, none⟩ else ⟨0, 0, none⟩⟩,
    GetTarget := ⟨fun _ => ⟨8⟩⟩,
    CreateValueFromExpression := fun _ _ => ⟨0, 0, none⟩,
    CreateValueFromAddress := fun _ _ _ => ⟨0, 0, none⟩ }

/-- A host state for a vector named `v` with count `3` and backing pointer
`0xABCD`; child handles record the name and expression they were built
from. -/
def sampleVector : SBValueHandle :=
  { GetName := "v",
    GetFrame := ⟨fun e =>
      if e = "v.count" then ⟨0, 3, none⟩
      else if e = "v.pointer" then ⟨43981, 0, some "0x000000000000abcd"⟩
      else ⟨0, 0, none⟩⟩,
    GetTarget := ⟨fun _ => ⟨8⟩⟩,
    CreateValueFromExpression := fun n e => ⟨0, 0, some (n ++ ":" ++ e)⟩,
    CreateValueFromAddress := fun _ _ _ => ⟨0, 0, none⟩ }

/-- A host state for a matrix named `m`: display pointer `0xABCD`, content
pointer rendering as `"0x100"`, `sunindextype` of byte size `8`, and memory
holding `4` at address `0x100` and `5` at address `0x108`. -/
def hexContentHandle : SBValueHandle :=
  { GetName := "m",
    GetFrame := ⟨fun e =>
      if e = "m.pointer" then ⟨43981, 0, some "0x000000000000abcd"⟩
      else if e = "m.pointer.pointee.content!" then ⟨256, 0, some "0x100"⟩
      else ⟨0, 0, none⟩⟩,
    GetTarget := ⟨fun _ => ⟨8⟩⟩,
    CreateValueFromExpression := fun _ _ => ⟨0, 0, none⟩,
    CreateValueFromAddress := fun _ a _ =>
      if a = 256 then ⟨4, 0, none⟩ else if a = 264 then ⟨5, 0, none⟩ else ⟨0, 0, none⟩ }

/-- A host state like `hexContentHandle`, but the first header cell holds
`2^63 + 5`, the bit pattern of the negative `int64` `-(2^63 - 5)`; the
unsigned read turns it into a large positive row count. -/
def bigDimsHandle : SBValueHandle :=
  { GetName := "m",
    GetFrame := ⟨fun e =>
      if e = "m.pointer.pointee.content!" then ⟨256, 0, some "0x100"⟩
      else ⟨0, 0, none⟩⟩,
    GetTarget := ⟨fun _ => ⟨8⟩⟩,
    CreateValueFromExpression := fun _ _ => ⟨0, 0, none⟩,
    CreateValueFromAddress := fun _ a _ =>
      if a = 256 then ⟨9223372036854775813, -9223372036854775803, none⟩
      else if a = 264 then ⟨7, 0, none⟩ else ⟨0, 0, none⟩ }

/-- Helper: the summary f-string with zero dimensions is the literal
`" (0×0 values)"` tail. -/
theorem matrixFString_zero (pointer : Nat) :
    matrixFString pointer 0 0 = "0x" ++ pyHex pointer ++ " (0×0 values)" := by
  unfold matrixFString
  simp [String.append_assoc]
  congr 1

/-- Helper: when `content.GetValue()` is falsy (unresolvable or empty),
`Matrix.summary` takes the default branch and reports `0×0`. -/
theorem matrix_summary_of_falsy (h : SBValueHandle)
    (hc : pyTruthy (h.GetFrame.EvaluateExpression
      (h.GetName ++ ".pointer.pointee.content!")).GetValue = false) :
    Matrix.summary h = Except.ok (matrixFString
      (h.GetFrame.EvaluateExpression (h.GetName ++ ".pointer")).GetValueAsUnsigned 0 0) := by
  simp [Matrix.summary, Matrix.ofValue, Matrix.GetExpressionPath, hc]

/-- Helper: when `content.GetValue()` is a non-empty string that parses as a
base-16 literal, `Matrix.summary` reads the two header cells at the parsed
address and at that address shifted by the byte size of `sunindextype`. -/
theorem matrix_summary_of_parse (h : SBValueHandle) (s : String) (address : Nat)
    (hs : (h.GetFrame.EvaluateExpression
      (h.GetName ++ ".pointer.pointee.content!")).GetValue = some s)
    (hne : s.isEmpty = false)
    (ha : pyIntBase16 s = Except.ok address) :
    Matrix.summary h = Except.ok (matrixFString
      (h.GetFrame.EvaluateExpression (h.GetName ++ ".pointer")).GetValueAsUnsigned
      (h.CreateValueFromAddress "rows" address
        (h.GetTarget.FindFirstType "sunindextype")).GetValueAsUnsigned
      (h.CreateValueFromAddress "cols"
        (address + (h.GetTarget.FindFirstType "sunindextype").GetByteSize)
        (h.GetTarget.FindFirstType "sunindextype")).GetValueAsUnsigned) := by
  simp [Matrix.summary, Matrix.ofValue, Matrix.GetExpressionPath, hs, pyTruthy, hne, ha]
/-- C1 (counterexample): a handle whose content pointer resolves but renders
as the non-hexadecimal string `"unavailable"` makes `int(contentValue, 16)`
raise `ValueError`, which propagates out of `Matrix.summary` instead of
degrading to a default summary. -/
theorem matrix_summary_raises_valueerror :
    Matrix.summary badContentHandle =
      Except.error "ValueError: invalid literal for int() with base 16: unavailable" := by
  rfl

/-- C1 (amended): `Vector.summary` always returns a string, and
`Matrix.summary` returns a string — degrading to zero dimensions — whenever
the content value is unresolvable/empty (falsy) or parses as a base-16
literal; only a resolvable content rendering as non-hexadecimal text makes
it raise. -/
theorem summaries_never_raise (h : SBValueHandle)
    (hc : pyTruthy (h.GetFrame.EvaluateExpression
        (h.GetName ++ ".pointer.pointee.content!")).GetValue = false
      ∨ ∃ a, pyIntBase16 ((h.GetFrame.EvaluateExpression
        (h.GetName ++ ".pointer.pointee.content!")).GetValue.getD "") = Except.ok a) :
    ∃ out, Matrix.summary h = Except.ok out := by
  rcases hc with hc | ⟨a, ha⟩
  · exact ⟨_, matrix_summary_of_falsy h hc⟩
  · cases hval : (h.GetFrame.EvaluateExpression
        (h.GetName ++ ".pointer.pointee.content!")).GetValue with
    | none =>
      rw [hval] at ha
      simp [pyIntBase16] at ha
    | some s =>
      rw [hval] at ha
      simp only [Option.getD_some] at ha
      have hne : s.isEmpty = false := by
        cases hs0 : s.isEmpty with
        | false => rfl
        | true =>
          rw [(String.isEmpty_iff s).mp hs0] at ha
          simp [pyIntBase16] at ha
      exact ⟨_, matrix_summary_of_parse h s a hval hne ha⟩

/-- C1 (witness for the amended claim): on a handle with unresolvable
content, `Matrix.summary` returns a string. -/
theorem summaries_never_raise_witness :
    ∃ out, Matrix.summary nullContentHandle = Except.ok out :=
  summaries_never_raise nullContentHandle (Or.inl rfl)

/-- C2 (counterexample): when the host evaluates `<name>.count` to the
signed value `-1`, `Vector.num_children` reports `-1`, a negative count. -/
theorem vector_num_children_negative :
    (Vector.ofValue negCountHandle).num_children = -1 ∧
    ¬ 0 ≤ (Vector.ofValue negCountHandle).num_children := by
  exact ⟨rfl, by decide⟩

/-- C2 (amended): `num_children` returns the signed evaluation of
`<value>.count` unchanged — no clamping — so it is non-negative exactly
when the evaluated count is. -/
theorem vector_num_children_passthrough (h : SBValueHandle) :
    (Vector.ofValue h).num_children
        = (h.GetFrame.EvaluateExpression (h.GetName ++ ".count")).signed ∧
      (0 ≤ (Vector.ofValue h).num_children ↔
        0 ≤ (h.GetFrame.EvaluateExpression (h.GetName ++ ".count")).signed) :=
  ⟨rfl, Iff.rfl⟩

/-- C3: `get_child_at_index(i)` returns `None` when `i` lies outside
`[0, num_children())` and otherwise the handle built by evaluating the
indexing expression `<name>[i]` of the original value, named `"[i]"`. -/
theorem vector_get_child_at_index (h : SBValueHandle) (i : Int) :
    ((0 ≤ i ∧ i < (Vector.ofValue h).num_children) →
      (Vector.ofValue h).get_child_at_index i =
        some (h.CreateValueFromExpression ("[" ++ toString i ++ "]")
          (h.GetName ++ ("[" ++ toString i ++ "]")))) ∧
    (¬ (0 ≤ i ∧ i < (Vector.ofValue h).num_children) →
      (Vector.ofValue h).get_child_at_index i = none) := by
  constructor
  · intro hin
    unfold Vector.get_child_at_index
    rw [if_pos hin]
    rfl
  · intro hout
    unfold Vector.get_child_at_index
    rw [if_neg hout]

/-- C3 (witness): on a vector of count `3`, index `1` yields the child built
from the expression `v[1]` named `[1]`, and index `5` yields `None`. -/
theorem vector_get_child_at_index_witness :
    (Vector.ofValue sampleVector).get_child_at_index 1 =
      some (sampleVector.CreateValueFromExpression "[1]" "v[1]") ∧
    (Vector.ofValue sampleVector).get_child_at_index 5 = none := by
  constructor
  · rw [(vector_get_child_at_index sampleVector 1).1 (by decide)]
    rfl
  · exact (vector_get_child_at_index sampleVector 5).2 (by decide)

/-- C4: when the content pointer renders as a usable hexadecimal value,
`rows` is the unsigned read at the content address and `cols` the unsigned
read at that address plus the byte size of the platform index type
`sunindextype`, and the summary reports `(rows×cols values)`. -/
theorem matrix_summary_hex_content (h : SBValueHandle) (s : String) (address : Nat)
    (hs : (h.GetFrame.EvaluateExpression
      (h.GetName ++ ".pointer.pointee.content!")).GetValue = some s)
    (hne : s.isEmpty = false)
    (ha : pyIntBase16 s = Except.ok address) :
    Matrix.summary h = Except.ok (matrixFString
      (h.GetFrame.EvaluateExpression (h.GetName ++ ".pointer")).GetValueAsUnsigned
      (h.CreateValueFromAddress "rows" address
        (h.GetTarget.FindFirstType "sunindextype")).GetValueAsUnsigned
      (h.CreateValueFromAddress "cols"
        (address + (h.GetTarget.FindFirstType "sunindextype").GetByteSize)
        (h.GetTarget.FindFirstType "sunindextype")).GetValueAsUnsigned) :=
  matrix_summary_of_parse h s address hs hne ha

/-- C4 (witness): content renders as `"0x100"`, memory holds `4` at
`0x100` and `5` at `0x108` (index type of byte size `8`), so the summary is
`"0xabcd (4×5 values)"`. -/
theorem matrix_summary_hex_content_witness :
    Matrix.summary hexContentHandle = Except.ok "0xabcd (4×5 values)" := by
  rw [matrix_summary_hex_content hexContentHandle "0x100" 256 rfl rfl rfl]
  rfl

/-- C5: when the content pointer evaluates to nothing usable (falsy
`GetValue()`), both dimensions default to `0` and the summary is
`"0x<pointer in lowercase hex> (0×0 values)"`. -/
theorem matrix_summary_null_content (h : SBValueHandle)
    (hc : pyTruthy (h.GetFrame.EvaluateExpression
      (h.GetName ++ ".pointer.pointee.content!")).GetValue = false) :
    Matrix.summary h = Except.ok ("0x" ++ pyHex
      (h.GetFrame.EvaluateExpression (h.GetName ++ ".pointer")).GetValueAsUnsigned
      ++ " (0×0 values)") := by
  rw [matrix_summary_of_falsy h hc, matrixFString_zero]

/-- C5 (witness): with an unresolvable content pointer and display pointer
`0xABCD`, the summary is `"0xabcd (0×0 values)"`. -/
theorem matrix_summary_null_content_witness :
    Matrix.summary nullContentHandle = Except.ok "0xabcd (0×0 values)" := by
  rw [matrix_summary_null_content nullContentHandle rfl]
  rfl

/-- C6: `Vector.summary` is `"0x"`, the backing pointer in lowercase
hexadecimal, a space, and `"(<count> values)"` with the synthetic child
count. -/
theorem vector_summary_format (h : SBValueHandle) (a : Nat) (n : Int)
    (hp : (h.GetFrame.EvaluateExpression (h.GetName ++ ".pointer")).GetValueAsUnsigned = a)
    (hn : (h.GetFrame.EvaluateExpression (h.GetName ++ ".count")).signed = n) :
    Vector.summary h = "0x" ++ pyHex a ++ " (" ++ toString n ++ " values)" := by
  simp [Vector.summary, Vector.ofValue, Vector.GetExpressionPath, Vector.num_children, hp, hn]

/-- C6 (witness): backing address `0xABCD` and count `3` give
`"0xabcd (3 values)"`. -/
theorem vector_summary_format_witness :
    Vector.summary sampleVector = "0xabcd (3 values)" := by
  rw [vector_summary_format sampleVector 43981 3 rfl rfl]
  rfl

/-- C7: `has_children()` is true iff `num_children() > 0`. -/
theorem vector_has_children_iff (h : SBValueHandle) :
    (Vector.ofValue h).has_children = true ↔ 0 < (Vector.ofValue h).num_children := by
  simp [Vector.has_children]

/-- C8: `get_child_index(name)` returns `None` for every name, deferring to
the host's default name matching. -/
theorem vector_get_child_index_none (h : SBValueHandle) (name : String) :
    (Vector.ofValue h).get_child_index name = none :=
  rfl

/-- C9: every public operation is a pure function of the value handle and
host state: in the state-passing reading each operation hands the adapter
state back unchanged (the Python methods assign no attribute after
`__init__`), so a second invocation on the resulting state returns the
same answer, and the class-method summaries depend on the handle alone. -/
theorem adapter_operations_idempotent (h : SBValueHandle) (i : Int) (nm : String) :
    ((Vector.ofValue h).num_childrenS.2 = Vector.ofValue h) ∧
    (((Vector.ofValue h).get_child_at_indexS i).2 = Vector.ofValue h) ∧
    (((Vector.ofValue h).get_child_indexS nm).2 = Vector.ofValue h) ∧
    ((Vector.ofValue h).has_childrenS.2 = Vector.ofValue h) ∧
    ((Vector.ofValue h).num_childrenS.2.num_childrenS.1
        = (Vector.ofValue h).num_childrenS.1) ∧
    ((((Vector.ofValue h).get_child_at_indexS i).2.get_child_at_indexS i).1
        = ((Vector.ofValue h).get_child_at_indexS i).1) ∧
    ((Vector.ofValue h).has_childrenS.2.has_childrenS.1
        = (Vector.ofValue h).has_childrenS.1) ∧
    (Vector.summary h = Vector.summary h) ∧
    (Matrix.summary h = Matrix.summary h) :=
  ⟨rfl, rfl, rfl, rfl, rfl, rfl, rfl, rfl, rfl⟩

/-- C10: under a usable content pointer both printed dimensions come from
`GetValueAsUnsigned` reads, hence are non-negative integers regardless of
the signedness of the platform index type. -/
theorem matrix_dims_nonneg (h : SBValueHandle) (s : String) (address : Nat)
    (hs : (h.GetFrame.EvaluateExpression
      (h.GetName ++ ".pointer.pointee.content!")).GetValue = some s)
    (hne : s.isEmpty = false)
    (ha : pyIntBase16 s = Except.ok address) :
    ∃ rows cols : Nat,
      Matrix.summary h = Except.ok (matrixFString
        (h.GetFrame.EvaluateExpression (h.GetName ++ ".pointer")).GetValueAsUnsigned
        rows cols) ∧
      (0 : Int) ≤ rows ∧ (0 : Int) ≤ cols :=
  ⟨_, _, matrix_summary_of_parse h s address hs hne ha, by positivity, by positivity⟩

/-- C10 (witness): a header cell holding the bit pattern of a negative
`int64` is still printed as the large non-negative unsigned value. -/
theorem matrix_dims_nonneg_witness :
    ∃ rows cols : Nat,
      Matrix.summary bigDimsHandle = Except.ok (matrixFString
        (bigDimsHandle.GetFrame.EvaluateExpression
          (bigDimsHandle.GetName ++ ".pointer")).GetValueAsUnsigned rows cols) ∧
      (0 : Int) ≤ rows ∧ (0 : Int) ≤ cols :=
  matrix_dims_nonneg bigDimsHandle "0x100" 256 rfl rfl rfl

end LLDB
